import Mathlib

/-!
Shallow embedding of the notebook
`intro-to-pytorch/Part 3 - Training Neural Networks (Exercises).ipynb`.

The notebook is a linear script: it loads MNIST batches, builds small
feed-forward models, computes losses, and runs a training loop that
delegates gradient computation and parameter updates to the external
framework.  The framework itself (autograd, tensor kernels, SGD) is out of
scope for the repository, so it is embedded as an opaque interface
(`TorchLib`); the repository's own statements are embedded one by one as
state transformers over `LoopState`, and their order as an operation trace.
-/

/-! ## Operation trace of the final training cell

The final training cell is

```
epochs = 5
for e in range(epochs):
    running_loss = 0
    for images, labels in trainloader:
        images = images.view(images.shape[0], -1)
        optimizer.zero_grad()
        output = model.forward(images)
        loss = criterion(output, labels)
        loss.backward()
        optimizer.step()
        running_loss += loss.item()
    else:
        print(f"Training loss: {running_loss/len(trainloader)}")
```

`Op` names each statement of that cell; the trace definitions record the
order in which the statements execute. -/

inductive Op : Type
  | view          -- images = images.view(images.shape[0], -1)
  | zero_grad     -- optimizer.zero_grad()
  | forward       -- output = model.forward(images)
  | loss_compute  -- loss = criterion(output, labels)
  | backward      -- loss.backward()
  | step_         -- optimizer.step()
  | accum         -- running_loss += loss.item()
  | reset_loss    -- running_loss = 0
  | print_loss    -- print(f"Training loss: {running_loss/len(trainloader)}")
  deriving DecidableEq, Repr

/-- The statements executed for one batch of the inner loop, in source order. -/
def bodyTrace : List Op :=
  [.view, .zero_grad, .forward, .loss_compute, .backward, .step_, .accum]

/-- The statements executed by one iteration of the outer loop (`for e in
range(epochs)`), when `trainloader` yields `n` batches: reset of
`running_loss`, then the body once per batch, then the `else:` print. -/
def epochTrace (n : Nat) : List Op :=
  .reset_loss :: (List.replicate n bodyTrace).flatten ++ [.print_loss]

/-- The whole trace of the final training cell: the outer loop appends one
epoch's statements per iteration; the loop body does not mention `e`. -/
def trainTrace (epochs n : Nat) : List Op :=
  (List.range epochs).foldl (fun acc _e => acc ++ epochTrace n) []

/-- The four operations the claim about per-batch ordering singles out. -/
def coreOp : Op → Bool
  | .forward => true
  | .loss_compute => true
  | .backward => true
  | .step_ => true
  | _ => false

/-- forward, loss computation, backward, weight update — in that order. -/
def coreSeq : List Op := [.forward, .loss_compute, .backward, .step_]

/-! ## State-machine embedding of the training loop

The external framework is opaque: the repository never looks inside
`model.forward`, `criterion`, autograd or the optimizer.  `TorchLib`
packages those calls as abstract functions; `P` is the type of the model's
parameter set, `G` of a gradient buffer, `O` of a model output batch and
`B` of a data batch (images together with labels).  Loss values
(`loss.item()`) are embedded as rationals. -/

structure TorchLib (P G O B : Type) where
  /-- `images.view(images.shape[0], -1)`: flattening of the image batch. -/
  viewFlat : B → B
  /-- `model.forward(images)` at the current parameters. -/
  modelForward : P → B → O
  /-- `criterion(output, labels).item()`, labels taken from the batch. -/
  criterion : O → B → ℚ
  /-- autograd: gradient of `criterion(model.forward(p, b), labels b)` at `p`. -/
  gradOf : P → B → G
  /-- the gradient buffer after `optimizer.zero_grad()`. -/
  zeroG : G
  /-- gradient accumulation: `loss.backward()` adds into the buffer. -/
  addG : G → G → G
  /-- `optimizer.step()`: the SGD update of the parameters from the buffer. -/
  sgdStep : P → G → P

/-- The mutable state the training cell touches: the model parameters, the
parameters' gradient buffer, the Python locals `output` and `loss`
(unassigned before their first use, hence `Option`), the accumulator
`running_loss`, and the lines printed so far. -/
structure LoopState (P G O : Type) where
  params : P
  grad : G
  output : Option O
  lossv : Option ℚ
  running_loss : ℚ
  printed : List ℚ

variable {P G O B : Type}

/-- `optimizer.zero_grad()`. -/
def stZeroGrad (L : TorchLib P G O B) (s : LoopState P G O) : LoopState P G O :=
  { s with grad := L.zeroG }

/-- `output = model.forward(images)`. -/
def stForward (L : TorchLib P G O B) (s : LoopState P G O) (images : B) :
    LoopState P G O :=
  { s with output := some (L.modelForward s.params images) }

/-- `loss = criterion(output, labels)`. -/
def stLoss (L : TorchLib P G O B) (s : LoopState P G O) (b : B) :
    LoopState P G O :=
  { s with lossv := s.output.map fun o => L.criterion o b }

/-- `loss.backward()`: accumulates the current batch's gradient into the
parameters' gradient buffer. -/
def stBackward (L : TorchLib P G O B) (s : LoopState P G O) (b : B) :
    LoopState P G O :=
  { s with grad := L.addG s.grad (L.gradOf s.params b) }

/-- `optimizer.step()`. -/
def stStep (L : TorchLib P G O B) (s : LoopState P G O) : LoopState P G O :=
  { s with params := L.sgdStep s.params s.grad }

/-- `running_loss += loss.item()`. -/
def stAccum (s : LoopState P G O) : LoopState P G O :=
  { s with running_loss := s.running_loss + s.lossv.getD 0 }

/-- `running_loss = 0`. -/
def stReset (s : LoopState P G O) : LoopState P G O :=
  { s with running_loss := 0 }

/-- `print(f"Training loss: {running_loss/len(trainloader)}")`, with
`len(trainloader) = n` batches. -/
def stPrint (n : Nat) (s : LoopState P G O) : LoopState P G O :=
  { s with printed := s.printed ++ [s.running_loss / (n : ℚ)] }

/-- The inner-loop body for one batch `b`, composing the statements in
source order (`images` is the flattened batch local). -/
def loopBody (L : TorchLib P G O B) (s : LoopState P G O) (b : B) :
    LoopState P G O :=
  let images := L.viewFlat b
  stAccum (stStep L (stBackward L (stLoss L (stForward L (stZeroGrad L s) images) images) images))

/-- One iteration of the outer loop: reset `running_loss`, run the body on
every batch `trainloader` yields, then the `else:` print. -/
def runEpoch (L : TorchLib P G O B) (batches : List B) (s : LoopState P G O) :
    LoopState P G O :=
  stPrint batches.length (batches.foldl (loopBody L) (stReset s))

/-- The full training cell: `for e in range(epochs)`, the body ignoring `e`. -/
def trainLoop (L : TorchLib P G O B) (epochs : Nat) (batches : List B)
    (s : LoopState P G O) : LoopState P G O :=
  (List.range epochs).foldl (fun st _e => runEpoch L batches st) s

/-- `epochs = 5` in the final training cell. -/
def epochsConfig : Nat := 5

/-! ## Configuration of the final training cell

The final cell's only choices, transcribed from the source:

```
model = nn.Sequential(nn.Linear(784, 128), nn.ReLU(),
                      nn.Linear(128, 64), nn.ReLU(),
                      nn.Linear(64, 10), nn.LogSoftmax(dim=1))
criterion = nn.NLLLoss()
optimizer = optim.SGD(model.parameters(), lr=0.003)
epochs = 5
```
-/

inductive LayerSpec : Type
  | linear (inFeatures outFeatures : Nat)  -- nn.Linear(inFeatures, outFeatures)
  | relu                                   -- nn.ReLU()
  | logSoftmax (dim : Nat)                 -- nn.LogSoftmax(dim=dim)
  deriving DecidableEq, Repr

/-- The `nn.Sequential` stack of the final training cell. -/
def finalModelSpec : List LayerSpec :=
  [.linear 784 128, .relu, .linear 128 64, .relu, .linear 64 10, .logSoftmax 1]

/-- The `nn.Sequential` stack of the `nn.CrossEntropyLoss` cell (no
`LogSoftmax` at the end). -/
def ceModelSpec : List LayerSpec :=
  [.linear 784 128, .relu, .linear 128 64, .relu, .linear 64 10]

inductive CriterionChoice : Type
  | nllLoss        -- nn.NLLLoss()
  | crossEntropy   -- nn.CrossEntropyLoss()
  deriving DecidableEq, Repr

/-- `criterion = nn.NLLLoss()` in the final training cell. -/
def finalCriterion : CriterionChoice := .nllLoss

/-- `optim.SGD(model.parameters(), lr=0.003)`: the learning rate. -/
def finalLR : ℚ := 3 / 1000

/-- Feature-dimension flow through one layer: a linear layer demands its
declared input width and produces its output width; activations keep it. -/
def layerOutDim (d : Nat) : LayerSpec → Option Nat
  | .linear i o => if i = d then some o else none
  | .relu => some d
  | .logSoftmax _ => some d

/-- Feature-dimension flow through a whole stack. -/
def pipeDims : Nat → List LayerSpec → Option Nat
  | d, [] => some d
  | d, l :: ls =>
    match layerOutDim d l with
    | some d2 => pipeDims d2 ls
    | none => none

/-- The (in, out) sizes of the linear layers of a stack. -/
def linearSizes (ls : List LayerSpec) : List (Nat × Nat) :=
  ls.filterMap fun l =>
    match l with
    | .linear i o => some (i, o)
    | _ => none

/-- Whether a layer is an activation (neither linear nor the output
log-softmax). -/
def isActivation : LayerSpec → Bool
  | .relu => true
  | _ => false

/-! ## Statement-level transcription of the notebook's code cells

For the claims about the absence of error handling and of direct file
access, each Python statement of each code cell is transcribed with its
kind.  `opensFile` marks a statement that itself opens, reads, writes or
parses a file; `fsDownload` marks a framework call told to download to
disk (`download=True`). -/

inductive PyStmt : Type
  | importStmt                                  -- import / from-import
  | assign (opensFile fsDownload : Bool)        -- name = expr
  | exprStmt (opensFile : Bool)                 -- bare expression / method call
  | printStmt                                   -- print(...)
  | augAssign                                   -- name += expr
  | magic                                       -- %matplotlib inline
  | forElse (body els : List PyStmt)            -- for ...: ... else: ...
  | withBlock (body : List PyStmt)              -- with ...: ...
  | tryExcept (body handlers : List PyStmt)     -- try: ... except: ...
  | classDef (body : List PyStmt)               -- class ...: ...
  | raiseStmt                                   -- raise ...

/-- Cell 1: imports, `transform = ...`, `trainset = datasets.MNIST(
'~/.pytorch/MNIST_data/', download=True, train=True, transform=transform)`,
`trainloader = torch.utils.data.DataLoader(trainset, batch_size=64,
shuffle=True)`. -/
def cellLoadData : List PyStmt :=
  [.importStmt, .importStmt, .importStmt, .importStmt,
   .assign false false,          -- transform = transforms.Compose(...)
   .assign false true,           -- trainset = datasets.MNIST(..., download=True, ...)
   .assign false false]          -- trainloader = torch.utils.data.DataLoader(...)

/-- Cell 2 (`nn.CrossEntropyLoss`): model, criterion, batch fetch, view,
forward to `logits`, loss, print. -/
def cellCrossEntropy : List PyStmt :=
  [.assign false false,          -- model = nn.Sequential(...)
   .assign false false,          -- criterion = nn.CrossEntropyLoss()
   .assign false false,          -- images, labels = next(iter(trainloader))
   .assign false false,          -- images = images.view(images.shape[0], -1)
   .assign false false,          -- logits = model(images)
   .assign false false,          -- loss = criterion(logits, labels)
   .printStmt]                   -- print(loss)

/-- Cell 3 (exercise, `nn.NLLLoss` over a LogSoftmax model): same shape,
forward to `logps`. -/
def cellNLLExercise : List PyStmt :=
  [.assign false false,          -- model = nn.Sequential(..., nn.LogSoftmax(dim=1))
   .assign false false,          -- criterion = nn.NLLLoss()
   .assign false false,          -- images, labels = next(iter(trainloader))
   .assign false false,          -- images = images.view(images.shape[0], -1)
   .assign false false,          -- logps = model(images)
   .assign false false,          -- loss = criterion(logps, labels)
   .printStmt]                   -- print(loss)

/-- Autograd demo cells: `x = torch.randn(2,2, requires_grad=True)`,
`y = x**2`, prints, `z = y.mean()`, `z.backward()`. -/
def cellsAutogradDemo : List PyStmt :=
  [.assign false false, .printStmt,     -- x = torch.randn(...); print(x)
   .assign false false, .printStmt,     -- y = x**2; print(y)
   .printStmt,                          -- print(y.grad_fn)
   .assign false false, .printStmt,     -- z = y.mean(); print(z)
   .printStmt,                          -- print(x.grad)
   .exprStmt false, .printStmt, .printStmt]  -- z.backward(); print(x.grad); print(x/2)

/-- "Loss and Autograd together" cell and its backward-print cell. -/
def cellLossAutograd : List PyStmt :=
  [.assign false false,          -- model = nn.Sequential(..., nn.LogSoftmax(dim=1))
   .assign false false,          -- criterion = nn.NLLLoss()
   .assign false false,          -- images, labels = next(iter(trainloader))
   .assign false false,          -- images = images.view(images.shape[0], -1)
   .assign false false,          -- logits = model(images)
   .assign false false,          -- loss = criterion(logits, labels)
   .printStmt,                   -- print('Before backward pass: ...', ...)
   .exprStmt false,              -- loss.backward()
   .printStmt]                   -- print('After backward pass: ...', ...)

/-- Optimizer cell: `from torch import optim`, `optimizer =
optim.SGD(model.parameters(), lr=0.01)`. -/
def cellOptimizer : List PyStmt :=
  [.importStmt, .assign false false]

/-- Single-training-step demo cells: print, batch fetch,
`images.resize_(64, 784)`, `optimizer.zero_grad()`, forward, loss,
`loss.backward()`, print, then `optimizer.step()` and print. -/
def cellSingleStep : List PyStmt :=
  [.printStmt,                   -- print('Initial weights - ', model[0].weight)
   .assign false false,          -- images, labels = next(iter(trainloader))
   .exprStmt false,              -- images.resize_(64, 784)
   .exprStmt false,              -- optimizer.zero_grad()
   .assign false false,          -- output = model.forward(images)
   .assign false false,          -- loss = criterion(output, labels)
   .exprStmt false,              -- loss.backward()
   .printStmt,                   -- print('Gradient -', model[0].weight.grad)
   .exprStmt false,              -- optimizer.step()
   .printStmt]                   -- print('Updated weights - ', model[0].weight)

/-- The final training cell, with its `for ... else` structure. -/
def cellTrainLoop : List PyStmt :=
  [.assign false false,          -- model = nn.Sequential(..., nn.LogSoftmax(dim=1))
   .assign false false,          -- criterion = nn.NLLLoss()
   .assign false false,          -- optimizer = optim.SGD(model.parameters(), lr=0.003)
   .assign false false,          -- epochs = 5
   .forElse                      -- for e in range(epochs):
     [.assign false false,       --   running_loss = 0
      .forElse                   --   for images, labels in trainloader:
        [.assign false false,    --     images = images.view(images.shape[0], -1)
         .exprStmt false,        --     optimizer.zero_grad()
         .assign false false,    --     output = model.forward(images)
         .assign false false,    --     loss = criterion(output, labels)
         .exprStmt false,        --     loss.backward()
         .exprStmt false,        --     optimizer.step()
         .augAssign]             --     running_loss += loss.item()
        [.printStmt]]            --   else: print(f"Training loss: ...")
     []]

/-- Prediction cell: `%matplotlib inline`, `import helper`, batch fetch,
`img = images[0].view(1, 784)`, `with torch.no_grad(): logits =
model.forward(img)`, `ps = F.softmax(logits, dim=1)`,
`helper.view_classify(img.view(1, 28, 28), ps)`. -/
def cellPredict : List PyStmt :=
  [.magic, .importStmt,
   .assign false false,          -- images, labels = next(iter(trainloader))
   .assign false false,          -- img = images[0].view(1, 784)
   .withBlock [.assign false false],  -- with torch.no_grad(): logits = model.forward(img)
   .assign false false,          -- ps = F.softmax(logits, dim=1)
   .exprStmt false]              -- helper.view_classify(img.view(1, 28, 28), ps)

/-- All code cells of the notebook, in order. -/
def notebookCells : List (List PyStmt) :=
  [cellLoadData, cellCrossEntropy, cellNLLExercise, cellsAutogradDemo,
   cellLossAutograd, cellOptimizer, cellSingleStep, cellTrainLoop,
   cellPredict]

mutual

/-- Whether a statement is (or contains) an error-handling or
error-defining construct: `try/except`, a class definition (the only way
to define an exception class), or `raise`. -/
def hasErrHandling : PyStmt → Bool
  | .tryExcept _ _ => true
  | .classDef _ => true
  | .raiseStmt => true
  | .forElse body els => hasErrHandlingList body || hasErrHandlingList els
  | .withBlock body => hasErrHandlingList body
  | _ => false

def hasErrHandlingList : List PyStmt → Bool
  | [] => false
  | s :: rest => hasErrHandling s || hasErrHandlingList rest

end

mutual

/-- Whether a statement itself opens, reads, writes or parses a file. -/
def opensFileDirectly : PyStmt → Bool
  | .assign o _ => o
  | .exprStmt o => o
  | .forElse body els => opensFileList body || opensFileList els
  | .withBlock body => opensFileList body
  | .tryExcept body handlers => opensFileList body || opensFileList handlers
  | .classDef body => opensFileList body
  | _ => false

def opensFileList : List PyStmt → Bool
  | [] => false
  | s :: rest => opensFileDirectly s || opensFileList rest

end

mutual

/-- How many statements are framework calls that download to disk. -/
def countDownload : PyStmt → Nat
  | .assign _ d => if d then 1 else 0
  | .forElse body els => countDownloadList body + countDownloadList els
  | .withBlock body => countDownloadList body
  | .tryExcept body handlers => countDownloadList body + countDownloadList handlers
  | .classDef body => countDownloadList body
  | _ => 0

def countDownloadList : List PyStmt → Nat
  | [] => 0
  | s :: rest => countDownload s + countDownloadList rest

end

/-- All statements of the notebook, flattened across cells (top level). -/
def notebookStmts : List PyStmt := notebookCells.flatten

/-! ## Real-valued semantics of the two model stacks

The CrossEntropyLoss cell builds
`nn.Sequential(nn.Linear(784,128), nn.ReLU(), nn.Linear(128,64), nn.ReLU(),
nn.Linear(64,10))` and passes `logits = model(images)` to the criterion;
the NLLLoss cells append `nn.LogSoftmax(dim=1)` to the same stack and pass
its output (named `logits` resp. `logps`) to `nn.NLLLoss()`.  The layers'
real-number semantics (one row of the batch): -/

/-- `nn.ReLU()` on one coordinate. -/
noncomputable def relu (x : ℝ) : ℝ := max x 0

/-- The parameters of the three `nn.Linear` layers (weights and biases are
initialized by the framework; nothing in the repository depends on their
values). -/
structure MLPParams where
  w1 : Fin 128 → Fin 784 → ℝ
  b1 : Fin 128 → ℝ
  w2 : Fin 64 → Fin 128 → ℝ
  b2 : Fin 64 → ℝ
  w3 : Fin 10 → Fin 64 → ℝ
  b3 : Fin 10 → ℝ

/-- `nn.Linear(n, m)`: `y = W x + b`. -/
noncomputable def linearLayer {m n : Nat} (w : Fin m → Fin n → ℝ)
    (bias : Fin m → ℝ) (x : Fin n → ℝ) : Fin m → ℝ :=
  fun i => (∑ j, w i j * x j) + bias i

/-- The shared `Linear/ReLU/Linear/ReLU/Linear` stack: the raw,
unnormalized scores. -/
noncomputable def rawScores (θ : MLPParams) (x : Fin 784 → ℝ) : Fin 10 → ℝ :=
  linearLayer θ.w3 θ.b3
    (fun j => relu (linearLayer θ.w2 θ.b2
      (fun k => relu (linearLayer θ.w1 θ.b1 x k)) j))

/-- `nn.LogSoftmax(dim=1)` on one row of the batch. -/
noncomputable def logSoftmax1 {n : Nat} (x : Fin n → ℝ) : Fin n → ℝ :=
  fun i => x i - Real.log (∑ j, Real.exp (x j))

/-- `logits = model(images)` in the CrossEntropyLoss cell: the model has no
output normalization, so the criterion receives the raw scores. -/
noncomputable def logitsCE (θ : MLPParams) (x : Fin 784 → ℝ) : Fin 10 → ℝ :=
  rawScores θ x

/-- `logits = model(images)` (resp. `logps`) in the NLLLoss cells: the model
ends in `nn.LogSoftmax(dim=1)`, so the criterion receives log-probabilities. -/
noncomputable def logpsNLL (θ : MLPParams) (x : Fin 784 → ℝ) : Fin 10 → ℝ :=
  logSoftmax1 (rawScores θ x)

/-! ## Flat-tensor model of the two flattening idioms

A tensor is flat data with a shape.  `images.view(images.shape[0], -1)`
reinterprets the shape without touching the data and fails unless the batch
dimension divides the element count; `images.resize_(64, 784)` resizes in
place to exactly `64 * 784` elements, truncating or padding with
uninitialized memory (modelled by an arbitrary `junk` stream). -/

structure Tens where
  shape : List Nat
  data : List ℚ

/-- Number of elements a shape describes. -/
def numel (t : Tens) : Nat := t.shape.prod

/-- `t.view(d0, -1)`: the `-1` dimension is inferred as `numel / d0`;
requires `d0` to divide the element count.  The data is unchanged. -/
def viewMinus1 (t : Tens) (d0 : Nat) : Option Tens :=
  if 0 < d0 ∧ d0 ∣ numel t then some ⟨[d0, numel t / d0], t.data⟩ else none

/-- `t.resize_(d0, d1)`: in-place resize; keeps the leading `d0 * d1`
elements and fills any missing tail from uninitialized memory `junk`. -/
def resizeUnder (t : Tens) (d0 d1 : Nat) (junk : Nat → ℚ) : Tens :=
  ⟨[d0, d1], t.data.take (d0 * d1) ++
    (List.range (d0 * d1 - t.data.length)).map junk⟩

/-- `batch_size=64` in `torch.utils.data.DataLoader(trainset, batch_size=64,
shuffle=True)`. -/
def batchSizeConfig : Nat := 64

/-- Row count of the first batch of `next(iter(trainloader))` over a dataset
of `datasetSize` samples (the loader's default keeps the last, possibly
smaller, batch; the first is full whenever enough samples exist). -/
def firstBatchSize (datasetSize batchSize : Nat) : Nat :=
  min batchSize datasetSize

/-! ## Helper lemmas -/

theorem foldl_append_const {α : Type} (x : List α) :
    ∀ (e : Nat) (a : List α),
      (List.range e).foldl (fun acc (_ : Nat) => acc ++ x) a =
        a ++ (List.replicate e x).flatten := by
  intro e
  induction e with
  | zero => intro a; simp
  | succ k ih =>
    intro a
    rw [List.range_succ, List.foldl_append, ih,
      List.replicate_succ' (n := k), List.flatten_append]
    simp

theorem trainTrace_eq_flatten (e n : Nat) :
    trainTrace e n = (List.replicate e (epochTrace n)).flatten := by
  rw [trainTrace, foldl_append_const]
  rfl

theorem filter_flatten_replicate {α : Type} (p : α → Bool) (l : List α) :
    ∀ n, ((List.replicate n l).flatten).filter p =
      (List.replicate n (l.filter p)).flatten := by
  intro n
  induction n with
  | zero => rfl
  | succ k ih => simp [List.replicate_succ, ih]

theorem flatten_replicate_flatten {α : Type} (x : List α) :
    ∀ e n, (List.replicate e ((List.replicate n x).flatten)).flatten =
      (List.replicate (e * n) x).flatten := by
  intro e n
  induction e with
  | zero => simp
  | succ k ih =>
    rw [List.replicate_succ, List.flatten_cons, ih, Nat.succ_mul,
      Nat.add_comm, List.replicate_add, List.flatten_append]

theorem filter_epochTrace (n : Nat) :
    (epochTrace n).filter coreOp = (List.replicate n coreSeq).flatten := by
  have hb : bodyTrace.filter coreOp = coreSeq := rfl
  simp [epochTrace, List.filter_append, filter_flatten_replicate, hb, coreOp]

theorem foldl_range_ignores_index {α : Type} (f : α → α) :
    ∀ (e : Nat) (a : α),
      (List.range e).foldl (fun st (_ : Nat) => f st) a = f^[e] a := by
  intro e
  induction e with
  | zero => intro a; rfl
  | succ k ih =>
    intro a
    rw [List.range_succ, List.foldl_append, ih,
      Function.iterate_succ_apply']
    rfl

theorem count_flatten_replicate (a : Op) (l : List Op) :
    ∀ n, ((List.replicate n l).flatten).count a = n * l.count a := by
  intro n
  induction n with
  | zero => simp
  | succ k ih =>
    rw [List.replicate_succ, List.flatten_cons, List.count_append, ih,
      Nat.succ_mul, Nat.add_comm]

theorem count_epochTrace (n : Nat) : (epochTrace n).count .forward = n := by
  have hb : bodyTrace.count .forward = 1 := rfl
  simp [epochTrace, List.count_append, List.count_cons,
    count_flatten_replicate, hb]

/-! ## C1: order of the training pass -/

/-- C1.  In the final training loop, for every batch in every epoch the
script performs forward pass, then loss computation, then backward pass,
then weight update, in that order, and this sequence repeats batch after
batch: restricted to those four operations, one inner-loop iteration is
exactly `[forward, loss_compute, backward, step_]`, and the whole trace
over `epochs` epochs of `n` batches each is that sequence repeated
`epochs * n` times. -/
theorem training_pass_order :
    bodyTrace.filter coreOp = coreSeq ∧
    ∀ epochs n, (trainTrace epochs n).filter coreOp =
      (List.replicate (epochs * n) coreSeq).flatten := by
  refine ⟨rfl, fun epochs n => ?_⟩
  rw [trainTrace_eq_flatten, filter_flatten_replicate, filter_epochTrace,
    flatten_replicate_flatten]

/-! ## C2: an epoch is loop control only -/

/-- C2.  `epochs = 5`; the outer loop `for e in range(epochs)` applies the
identical epoch transformation `epochs` times — the body never reads the
counter `e`, so the loop is plain iteration — and each epoch runs the
training pass exactly once per batch yielded by `trainloader` (counted
here by the forward passes of the trace): `n` per epoch, `epochs * n`
overall. -/
theorem epoch_is_loop_control :
    epochsConfig = 5 ∧
    (∀ (P G O B : Type) (L : TorchLib P G O B) (epochs : Nat)
        (batches : List B) (s : LoopState P G O),
      trainLoop L epochs batches s = (runEpoch L batches)^[epochs] s) ∧
    (∀ n, (epochTrace n).count .forward = n) ∧
    (∀ epochs n, (trainTrace epochs n).count .forward = epochs * n) := by
  refine ⟨rfl, ?_, count_epochTrace, ?_⟩
  · intro P G O B L epochs batches s
    exact foldl_range_ignores_index (runEpoch L batches) epochs s
  · intro epochs n
    rw [trainTrace_eq_flatten, count_flatten_replicate, count_epochTrace]

/-! ## C5, C8, C9: frame conditions, gradient invariant, epoch loss -/

/-- The parameter update one training pass performs (zeroed buffer, one
backward accumulation, one SGD step). -/
def stepParams (L : TorchLib P G O B) (p : P) (b : B) : P :=
  L.sgdStep p (L.addG L.zeroG (L.gradOf p (L.viewFlat b)))

/-- `loss.item()` of one training pass at parameters `p`. -/
def batchLoss (L : TorchLib P G O B) (p : P) (b : B) : ℚ :=
  L.criterion (L.modelForward p (L.viewFlat b)) (L.viewFlat b)

/-- The per-batch loss values of one epoch, starting at parameters `p`
(each pass updates the parameters the next pass sees). -/
def lossSeq (L : TorchLib P G O B) : P → List B → List ℚ
  | _, [] => []
  | p, b :: bs => batchLoss L p b :: lossSeq L (stepParams L p b) bs

theorem loopBody_running_loss (L : TorchLib P G O B) (s : LoopState P G O)
    (b : B) :
    (loopBody L s b).running_loss = s.running_loss + batchLoss L s.params b :=
  rfl

theorem loopBody_params (L : TorchLib P G O B) (s : LoopState P G O) (b : B) :
    (loopBody L s b).params = stepParams L s.params b := rfl

theorem loopBody_printed (L : TorchLib P G O B) (s : LoopState P G O) (b : B) :
    (loopBody L s b).printed = s.printed := rfl

theorem foldl_loopBody (L : TorchLib P G O B) :
    ∀ (batches : List B) (s : LoopState P G O),
      (batches.foldl (loopBody L) s).running_loss =
          s.running_loss + (lossSeq L s.params batches).sum ∧
        (batches.foldl (loopBody L) s).printed = s.printed := by
  intro batches
  induction batches with
  | nil => intro s; simp [lossSeq]
  | cons b bs ih =>
    intro s
    rw [List.foldl_cons]
    refine ⟨?_, ?_⟩
    · rw [(ih (loopBody L s b)).1, loopBody_running_loss, loopBody_params,
        lossSeq, List.sum_cons]
      ring
    · rw [(ih (loopBody L s b)).2, loopBody_printed]

/-- C5.  All parameter and gradient mutation is delegated: of the training
loop's statements, only `optimizer.zero_grad()`, `loss.backward()` and
`optimizer.step()` touch the parameters or their gradient buffer — the
forward pass, the loss computation, the `running_loss` bookkeeping, the
reset and the print leave both fields unchanged, the delegated calls touch
only their own field, and the composition of everything the script runs
between one batch's `optimizer.step()` and the next batch's
`loss.backward()` (within an epoch, and across an epoch boundary) leaves
the parameters exactly as the step left them. -/
theorem mutation_is_delegated :
    (∀ (P G O B : Type) (L : TorchLib P G O B) (s : LoopState P G O)
        (images : B), (stForward L s images).params = s.params ∧
        (stForward L s images).grad = s.grad) ∧
    (∀ (P G O B : Type) (L : TorchLib P G O B) (s : LoopState P G O) (b : B),
      (stLoss L s b).params = s.params ∧ (stLoss L s b).grad = s.grad) ∧
    (∀ (P G O : Type) (s : LoopState P G O),
      (stAccum s).params = s.params ∧ (stAccum s).grad = s.grad) ∧
    (∀ (P G O : Type) (s : LoopState P G O),
      (stReset s).params = s.params ∧ (stReset s).grad = s.grad) ∧
    (∀ (P G O : Type) (n : Nat) (s : LoopState P G O),
      (stPrint n s).params = s.params ∧ (stPrint n s).grad = s.grad) ∧
    (∀ (P G O B : Type) (L : TorchLib P G O B) (s : LoopState P G O),
      (stZeroGrad L s).params = s.params) ∧
    (∀ (P G O B : Type) (L : TorchLib P G O B) (s : LoopState P G O) (b : B),
      (stBackward L s b).params = s.params) ∧
    (∀ (P G O B : Type) (L : TorchLib P G O B) (s : LoopState P G O),
      (stStep L s).grad = s.grad) ∧
    (∀ (P G O B : Type) (L : TorchLib P G O B) (s : LoopState P G O) (b : B),
      (stLoss L (stForward L (stZeroGrad L (stAccum s)) (L.viewFlat b))
        (L.viewFlat b)).params = s.params) ∧
    (∀ (P G O B : Type) (L : TorchLib P G O B) (n : Nat)
        (s : LoopState P G O) (b : B),
      (stLoss L (stForward L (stZeroGrad L (stReset (stPrint n (stAccum s))))
        (L.viewFlat b)) (L.viewFlat b)).params = s.params) := by
  exact ⟨fun _ _ _ _ _ _ _ => ⟨rfl, rfl⟩, fun _ _ _ _ _ _ _ => ⟨rfl, rfl⟩,
    fun _ _ _ _ => ⟨rfl, rfl⟩, fun _ _ _ _ => ⟨rfl, rfl⟩,
    fun _ _ _ _ _ => ⟨rfl, rfl⟩, fun _ _ _ _ _ _ => rfl,
    fun _ _ _ _ _ _ _ => rfl, fun _ _ _ _ _ _ => rfl,
    fun _ _ _ _ _ _ _ => rfl, fun _ _ _ _ _ _ _ _ => rfl⟩

/-- The gradient buffer at the moment `optimizer.step()` is called:
after `optimizer.zero_grad()`, the forward pass, the loss computation and
`loss.backward()` of one training pass. -/
def gradAtStep (L : TorchLib P G O B) (s : LoopState P G O) (b : B) : G :=
  (stBackward L (stLoss L (stForward L (stZeroGrad L s) (L.viewFlat b))
    (L.viewFlat b)) (L.viewFlat b)).grad

/-- C8.  Because `optimizer.zero_grad()` runs before every forward/backward
pass, the gradients at every `optimizer.step()` are exactly the current
batch's (given the framework's accumulation semantics, under which adding
into a zeroed buffer yields the addend): they equal
`gradOf (current params) (current batch)`, whatever gradient `g2` was left
in the buffer by earlier batches or epochs, and each pass's step therefore
updates the parameters with that batch's gradient alone. -/
theorem grad_at_step_is_current_batch (P G O B : Type) (L : TorchLib P G O B)
    (hz : ∀ g, L.addG L.zeroG g = g)
    (s : LoopState P G O) (g2 : G) (b : B) :
    gradAtStep L s b = L.gradOf s.params (L.viewFlat b) ∧
    gradAtStep L { s with grad := g2 } b = L.gradOf s.params (L.viewFlat b) ∧
    (loopBody L s b).grad = L.gradOf s.params (L.viewFlat b) ∧
    (loopBody L s b).params =
      L.sgdStep s.params (L.gradOf s.params (L.viewFlat b)) := by
  refine ⟨?_, ?_, ?_, ?_⟩ <;>
    simp [gradAtStep, loopBody, stBackward, stLoss, stForward, stZeroGrad,
      stStep, stAccum, hz]

/-- A concrete instantiation of the framework interface over rationals,
used to witness the hypotheses of the theorems above. -/
def demoLib : TorchLib ℚ ℚ ℚ ℚ where
  viewFlat := id
  modelForward := fun p b => p * b
  criterion := fun o b => o - b
  gradOf := fun p b => p + b
  zeroG := 0
  addG := fun g h => g + h
  sgdStep := fun p g => p - g

/-- A concrete starting state with a stale gradient left in the buffer. -/
def demoState : LoopState ℚ ℚ ℚ := ⟨1, 5, none, none, 0, []⟩

/-- Witness for C8 at the concrete library `demoLib`, state `demoState`
(stale gradient 5), overwritten stale gradient 7, and batch 2. -/
theorem grad_at_step_is_current_batch_witness :
    gradAtStep demoLib demoState 2 =
        demoLib.gradOf demoState.params (demoLib.viewFlat 2) ∧
      gradAtStep demoLib { demoState with grad := 7 } 2 =
        demoLib.gradOf demoState.params (demoLib.viewFlat 2) ∧
      (loopBody demoLib demoState 2).grad =
        demoLib.gradOf demoState.params (demoLib.viewFlat 2) ∧
      (loopBody demoLib demoState 2).params =
        demoLib.sgdStep demoState.params
          (demoLib.gradOf demoState.params (demoLib.viewFlat 2)) :=
  grad_at_step_is_current_batch ℚ ℚ ℚ ℚ demoLib (fun g => zero_add g)
    demoState 7 2

/-- C9.  The loss printed at the end of an epoch is the sum of that
epoch's per-batch `loss.item()` values divided by `len(trainloader)`, and
— because `running_loss = 0` opens every epoch — the state before the
epoch contributes nothing: overwriting the incoming `running_loss` with
any `x` changes nothing about the epoch. -/
theorem epoch_prints_epoch_average (P G O B : Type) (L : TorchLib P G O B)
    (batches : List B) (s : LoopState P G O) (x : ℚ) :
    (runEpoch L batches s).printed =
        s.printed ++ [(lossSeq L s.params batches).sum / (batches.length : ℚ)] ∧
      runEpoch L batches { s with running_loss := x } =
        runEpoch L batches s := by
  constructor
  · have h := foldl_loopBody L batches (stReset s)
    rw [runEpoch, stPrint, h.1, h.2]
    simp [stReset]
  · rfl

/-! ## C3: what the criterion receives -/

/-- All-zero weights and biases, one concrete parameter set. -/
noncomputable def zeroParams : MLPParams :=
  ⟨fun _ _ => 0, fun _ => 0, fun _ _ => 0, fun _ => 0, fun _ _ => 0, fun _ => 0⟩

/-- C3.  The value named `logits` in the CrossEntropyLoss cell is the raw
output of the `Linear/ReLU/.../Linear` stack; in the cells that feed
`nn.NLLLoss` the model ends in `nn.LogSoftmax(dim=1)`, so the value passed
(named `logits` resp. `logps`) is the log-softmax of the raw scores — a
normalized log-probability vector (its exponentials sum to 1 on every
input), not a raw score (the raw scores' exponentials need not sum to 1,
e.g. at all-zero parameters). -/
theorem logits_vs_logps :
    (∀ θ x, logitsCE θ x = rawScores θ x) ∧
    (∀ θ x, logpsNLL θ x = logSoftmax1 (rawScores θ x)) ∧
    (∀ (θ : MLPParams) (x : Fin 784 → ℝ),
      ∑ i, Real.exp (logpsNLL θ x i) = 1) ∧
    (∃ (θ : MLPParams) (x : Fin 784 → ℝ),
      ∑ i, Real.exp (logitsCE θ x i) ≠ 1) := by
  refine ⟨fun _ _ => rfl, fun _ _ => rfl, ?_, ?_⟩
  · intro θ x
    have hpos : 0 < ∑ j, Real.exp (rawScores θ x j) :=
      Finset.sum_pos (fun j _ => Real.exp_pos _) Finset.univ_nonempty
    simp only [logpsNLL, logSoftmax1, Real.exp_sub, Real.exp_log hpos]
    rw [← Finset.sum_div]
    exact div_self (ne_of_gt hpos)
  · refine ⟨zeroParams, fun _ => 0, ?_⟩
    have hz : ∀ i, logitsCE zeroParams (fun _ => 0) i = 0 := by
      intro i
      simp [logitsCE, rawScores, linearLayer, relu, zeroParams]
    rw [Finset.sum_congr rfl (fun i _ => by rw [hz i, Real.exp_zero])]
    simp

/-! ## C4: the final cell's choices are configuration -/

/-- C4.  The final training cell's algorithmic choices are exactly: linear
layer sizes 784 → 128 → 64 → 10 forming a dimension-consistent pipeline
from a 784-vector to a 10-vector, ReLU as the only activation (twice),
a LogSoftmax(dim=1) output feeding `nn.NLLLoss`, SGD with learning rate
0.003, and 5 epochs. -/
theorem final_cell_configuration :
    linearSizes finalModelSpec = [(784, 128), (128, 64), (64, 10)] ∧
    pipeDims 784 finalModelSpec = some 10 ∧
    finalModelSpec.filter isActivation = [.relu, .relu] ∧
    finalModelSpec.getLast? = some (.logSoftmax 1) ∧
    finalCriterion = .nllLoss ∧
    finalLR = 3 / 1000 ∧
    epochsConfig = 5 := by
  refine ⟨rfl, rfl, rfl, rfl, rfl, rfl, rfl⟩

/-! ## C6: no error taxonomy -/

/-- C6.  No statement of any code cell — at top level or nested in the
loops and `with` blocks — is a `try/except`, a class definition (so in
particular no exception class is defined), or a `raise`; the notebook has
no error-handling branch of its own. -/
theorem no_error_handling : hasErrHandlingList notebookStmts = false := by
  decide

/-! ## C7: no CLI, wire protocol, or persisted format -/

/-- C7.  No statement of any cell itself opens, writes, or parses a file;
exactly one statement of the whole notebook triggers a file-system effect,
and it is the framework call `datasets.MNIST('~/.pytorch/MNIST_data/',
download=True, ...)` in the data-loading cell. -/
theorem no_direct_file_access :
    opensFileList notebookStmts = false ∧
    countDownloadList notebookStmts = 1 ∧
    countDownloadList cellLoadData = 1 := by
  refine ⟨by decide, by decide, by decide⟩

/-! ## C10: the two flattening idioms -/

theorem resize_data_length (t : Tens) (d0 d1 : Nat) (junk : Nat → ℚ) :
    (resizeUnder t d0 d1 junk).data.length = d0 * d1 := by
  simp [resizeUnder]
  omega

/-- C10.  `images.view(images.shape[0], -1)` succeeds for every batch
shaped `[b, 1, 28, 28]` (any batch size `b ≥ 1`; each image has 784
elements) and keeps the batch dimension and the data unchanged;
`images.resize_(64, 784)` preserves the fetched batch's data exactly when
the batch holds `64 * 784` elements, and changes it whenever the batch
size differs from 64; the single-step demo's precondition holds, because
`next(iter(trainloader))` with `batch_size=64` over a dataset of at least
64 samples yields a full batch of 64 images. -/
theorem flatten_idioms (b : Nat) (t tFull : Tens) (junk : Nat → ℚ) (n : Nat)
    (hb : 0 < b)
    (hsh : t.shape = [b, 1, 28, 28])
    (hlen : t.data.length = b * 784)
    (hFull : tFull.data.length = 64 * 784)
    (hb64 : b ≠ 64)
    (hn : 64 ≤ n) :
    viewMinus1 t b = some ⟨[b, 784], t.data⟩ ∧
    resizeUnder tFull 64 784 junk = ⟨[64, 784], tFull.data⟩ ∧
    (resizeUnder t 64 784 junk).data ≠ t.data ∧
    firstBatchSize n batchSizeConfig = 64 := by
  have hnum : numel t = b * 784 := by
    simp [numel, hsh]
  refine ⟨?_, ?_, ?_, ?_⟩
  · rw [viewMinus1, if_pos ⟨hb, hnum ▸ dvd_mul_right b 784⟩]
    congr 2
    rw [hnum, Nat.mul_div_cancel_left _ hb]
  · have h2 : 64 * 784 - tFull.data.length = 0 := by omega
    rw [resizeUnder, h2, ← hFull, List.take_length]
    simp
  · intro heq
    have hl := congrArg List.length heq
    rw [resize_data_length, hlen] at hl
    omega
  · simp [firstBatchSize, batchSizeConfig]
    omega

/-- A batch of 32 all-zero flattened-to-be images, shaped `[32, 1, 28, 28]`
(the size of the last MNIST batch under `batch_size=64`). -/
def batch32 : Tens := ⟨[32, 1, 28, 28], List.replicate (32 * 784) 0⟩

/-- A full batch already shaped `[64, 784]`. -/
def batch64 : Tens := ⟨[64, 784], List.replicate (64 * 784) 0⟩

/-- Witness for C10 at batch size 32 (a non-full batch), a full 64-row
batch, zero junk memory, and the MNIST training-set size 60000. -/
theorem flatten_idioms_witness :
    viewMinus1 batch32 32 = some ⟨[32, 784], batch32.data⟩ ∧
    resizeUnder batch64 64 784 (fun _ => 0) = ⟨[64, 784], batch64.data⟩ ∧
    (resizeUnder batch32 64 784 (fun _ => 0)).data ≠ batch32.data ∧
    firstBatchSize 60000 batchSizeConfig = 64 :=
  flatten_idioms 32 batch32 batch64 (fun _ => 0) 60000 (by decide) rfl
    (List.length_replicate _ _) (List.length_replicate _ _) (by decide)
    (by decide)
